import Mathlib

/-!
Verification development for the UAVLogViewer repository.

Part 1 embeds the angle-arithmetic helpers of
`src/mavextra/mymavextra.js`.  The JavaScript functions operate on IEEE
numbers; the claims about them quantify over real numbers, so the
functions are embedded generically over a linear ordered field and the
theorems are stated over `ℝ` (instantiation at `ℚ` keeps every
definition executable).

Part 2 models the Telemetry Analysis & Conversational Retrieval Engine
described by the specification.  The backend implementing it
(`backend/...` in the repository's documentation) is not present in the
source tree, so those definitions are modelled from the spec, as their
doc comments record.
-/

namespace UAVLogViewer

/-- `window.angle_diff` from `src/mavextra/mymavextra.js`:
subtract, then pull the result back by 360 if above 180, then push it
up by 360 if below -180 (the two corrections applied in sequence,
exactly as the JS mutates `ret`). -/
def angle_diff {α : Type} [LinearOrderedField α] (angle1 angle2 : α) : α :=
  let ret0 := angle1 - angle2
  let ret1 := if ret0 > 180 then ret0 - 360 else ret0
  let ret2 := if ret1 < -180 then ret1 + 360 else ret1
  ret2

/-- `window.wrap_360` from `src/mavextra/mymavextra.js`:
subtract 360 if above 360, then add 360 if below 0, each correction
applied at most once. -/
def wrap_360 {α : Type} [LinearOrderedField α] (angle : α) : α :=
  let ret0 := angle
  let ret1 := if ret0 > 360 then ret0 - 360 else ret0
  let ret2 := if ret1 < 0 then ret1 + 360 else ret1
  ret2

/-- `window.wrap_180` from `src/mavextra/mymavextra.js`:
subtract 360 if above 180, then add 360 if below -180. -/
def wrap_180 {α : Type} [LinearOrderedField α] (angle : α) : α :=
  let ret0 := angle
  let ret1 := if ret0 > 180 then ret0 - 360 else ret0
  let ret2 := if ret1 < -180 then ret1 + 360 else ret1
  ret2

/-- C8: `angle_diff` is antisymmetric: for every pair of real numbers
`angle1` and `angle2`, `angle_diff angle1 angle2 = -angle_diff angle2 angle1`. -/
theorem angle_diff_antisymm (angle1 angle2 : ℝ) :
    angle_diff angle1 angle2 = -angle_diff angle2 angle1 := by
  simp only [angle_diff]
  split_ifs <;> linarith

/-- C9: `wrap_180` coincides with `angle_diff` against a zero second
argument: for every real number `angle`,
`wrap_180 angle = angle_diff angle 0`. -/
theorem wrap_180_eq_angle_diff_zero (angle : ℝ) :
    wrap_180 angle = angle_diff angle 0 := by
  simp only [wrap_180, angle_diff]
  split_ifs <;> linarith

/-- C10: for every real `angle` in `[-360, 720]`, `wrap_360 angle` lies in
`[0, 360]` and differs from `angle` by a multiple of 360 (it equals
`angle`, `angle - 360` or `angle + 360`); on every real (also outside the
interval) at most one correction is applied, so the result is always one
of those three values, but outside the interval it need not lie in
`[0, 360]` (e.g. `wrap_360 800 = 440 > 360`). -/
theorem wrap_360_spec (angle other : ℝ)
    (h1 : -360 ≤ angle) (h2 : angle ≤ 720) :
    ((0 ≤ wrap_360 angle ∧ wrap_360 angle ≤ 360) ∧
      (wrap_360 angle = angle ∨ wrap_360 angle = angle - 360 ∨
        wrap_360 angle = angle + 360)) ∧
    (wrap_360 other = other ∨ wrap_360 other = other - 360 ∨
      wrap_360 other = other + 360) ∧
    (wrap_360 (800 : ℝ) = 440 ∧ 360 < wrap_360 (800 : ℝ)) := by
  refine ⟨⟨?_, ?_⟩, ?_, ?_, ?_⟩
  · simp only [wrap_360]
    split_ifs <;> constructor <;> linarith
  · simp only [wrap_360]
    split_ifs
    · left; linarith
    · right; left; linarith
    · right; right; linarith
    · left; linarith
  · simp only [wrap_360]
    split_ifs
    · left; linarith
    · right; left; linarith
    · right; right; linarith
    · left; linarith
  · simp only [wrap_360]
    norm_num
  · simp only [wrap_360]
    norm_num

/-- Witness for C10 at the concrete inputs `angle = 100`, `other = -500`:
the hypotheses hold and the conclusion evaluates. -/
theorem wrap_360_spec_witness :
    (-360 ≤ (100 : ℝ) ∧ (100 : ℝ) ≤ 720) ∧
    (((0 ≤ wrap_360 (100 : ℝ) ∧ wrap_360 (100 : ℝ) ≤ 360) ∧
        (wrap_360 (100 : ℝ) = 100 ∨ wrap_360 (100 : ℝ) = 100 - 360 ∨
          wrap_360 (100 : ℝ) = 100 + 360)) ∧
      (wrap_360 (-500 : ℝ) = -500 ∨ wrap_360 (-500 : ℝ) = -500 - 360 ∨
        wrap_360 (-500 : ℝ) = -500 + 360) ∧
      (wrap_360 (800 : ℝ) = 440 ∧ 360 < wrap_360 (800 : ℝ))) :=
  ⟨⟨by norm_num, by norm_num⟩,
    wrap_360_spec 100 (-500) (by norm_num) (by norm_num)⟩

/-! ### Part 2: the Telemetry Analysis & Conversational Retrieval Engine

The backend code (`backend/domain`, `backend/application`, ...) named in
the repository's documentation is absent from the source tree, so the
definitions below are modelled from the specification's words. -/

/-- Modelled from the spec: the protocol vocabulary of message type tags
(`GPS_RAW_INT`, `GLOBAL_POSITION_INT`, `BATTERY_STATUS`, `STATUSTEXT`,
`RC_CHANNELS` appear in the documentation's inference table;
`HEARTBEAT` stands for a known protocol type that no anomaly heuristic
or inference keyword targets).  The backend parser module is missing
from the source tree. -/
inductive MsgType
  | GPS_RAW_INT
  | GLOBAL_POSITION_INT
  | BATTERY_STATUS
  | STATUSTEXT
  | RC_CHANNELS
  | HEARTBEAT
  deriving DecidableEq, Repr

/-- Modelled from the spec: one decoded record from the binary stream —
message type tag, log-relative timestamp, a field-name-to-numeric-value
mapping, and the literal text of status-text messages.  The backend
`Message` entity is missing from the source tree. -/
structure TelemetryMessage where
  msgType : MsgType
  timestamp : Nat
  fields : List (String × Int)
  text : String
  deriving DecidableEq, Repr

/-- Modelled from the spec: one parsed telemetry recording — opaque
identity, origin filename and the ordered message sequence.  The
backend `FlightLog` entity is missing from the source tree. -/
structure FlightLog where
  id : Nat
  filename : String
  messages : List TelemetryMessage
  deriving DecidableEq, Repr

/-- Modelled from the spec: one protocol frame of the raw byte stream,
either well-formed (decoding to a message) or malformed.  The backend
MAVLink parser is missing from the source tree. -/
inductive Frame
  | wellFormed (msg : TelemetryMessage)
  | malformed
  deriving DecidableEq, Repr

/-- Modelled from the spec: the raw byte stream, abstracted as a
container header (well-formed or not) followed by a sequence of frames.
The backend ingest boundary is missing from the source tree. -/
structure RawStream where
  goodHeader : Bool
  frames : List Frame
  deriving DecidableEq, Repr

/-- Modelled from the spec: the `ParseError` taxonomy — the stream is
not the expected container format, or zero messages are recoverable. -/
inductive ParseError
  | badContainer
  | noMessages
  deriving DecidableEq, Repr

/-- The well-formed frames' messages, in arrival order (malformed
frames skipped). -/
def recoverFrames : List Frame → List TelemetryMessage
  | [] => []
  | Frame.wellFormed m :: rest => m :: recoverFrames rest
  | Frame.malformed :: rest => recoverFrames rest

/-- The number of well-formed frames in a frame sequence. -/
def wellFormedCount (frames : List Frame) : Nat :=
  (recoverFrames frames).length

/-- Executable non-decreasing check on a timestamp list. -/
def nondecreasingTimestamps : List Nat → Bool
  | [] => true
  | [_] => true
  | a :: b :: rest => decide (a ≤ b) && nondecreasingTimestamps (b :: rest)

lemma nondecreasingTimestamps_iff_chain (l : List Nat) :
    nondecreasingTimestamps l = true ↔ List.Chain' (· ≤ ·) l := by
  induction l with
  | nil => simp [nondecreasingTimestamps]
  | cons a rest ih =>
    cases rest with
    | nil => simp [nondecreasingTimestamps]
    | cons b rest2 =>
      rw [nondecreasingTimestamps, List.chain'_cons, Bool.and_eq_true, decide_eq_true_iff, ih]

/-- Modelled from the spec: a valid container has a well-formed header
and its well-formed frames carry non-decreasing (monotonic,
log-relative) timestamps in arrival order. -/
def validContainer (s : RawStream) : Prop :=
  s.goodHeader = true ∧
    nondecreasingTimestamps
      ((recoverFrames s.frames).map TelemetryMessage.timestamp) = true

instance (s : RawStream) : Decidable (validContainer s) :=
  inferInstanceAs (Decidable (_ ∧ _))

/-- Modelled from the spec: `parse(rawBytes) -> FlightLog | ParseError`.
Fails when the stream is not the expected container format; otherwise
decodes the well-formed frames in arrival order, skipping malformed
ones, and fails when zero messages are recoverable.  The backend
`MAVLinkParser` is missing from the source tree. -/
def parse (s : RawStream) (id : Nat) (filename : String) :
    Except ParseError FlightLog :=
  if s.goodHeader = false then .error .badContainer
  else
    let msgs := recoverFrames s.frames
    if msgs.isEmpty then .error .noMessages
    else .ok ⟨id, filename, msgs⟩

lemma recoverFrames_length_le (frames : List Frame) :
    wellFormedCount frames ≤ frames.length := by
  induction frames with
  | nil => simp [wellFormedCount, recoverFrames]
  | cons f rest ih =>
    cases f <;> simp only [wellFormedCount, recoverFrames, List.length_cons] at * <;> omega

/-- C1: for every valid container (well-formed header, monotonic source
timestamps) holding `K` well-formed and `M` malformed frames, `parse`
returns a `FlightLog` holding exactly the `K` decoded messages in
arrival order with non-decreasing timestamps whenever `K > 0`, and
`parse` fails exactly when the header is bad or zero messages are
recoverable. -/
theorem parse_correct (s : RawStream) (id : Nat) (filename : String) :
    (validContainer s → 0 < wellFormedCount s.frames →
      parse s id filename = .ok ⟨id, filename, recoverFrames s.frames⟩) ∧
    ((recoverFrames s.frames).length = wellFormedCount s.frames) ∧
    (validContainer s →
      List.Chain' (· ≤ ·)
        ((recoverFrames s.frames).map TelemetryMessage.timestamp)) ∧
    ((parse s id filename).toOption = none ↔
      (s.goodHeader = false ∨ wellFormedCount s.frames = 0)) := by
  refine ⟨?_, rfl, fun hv => (nondecreasingTimestamps_iff_chain _).mp hv.2, ?_⟩
  · intro hv hK
    have hh : s.goodHeader = true := hv.1
    have hne : (recoverFrames s.frames).isEmpty = false := by
      unfold wellFormedCount at hK
      cases hrec : recoverFrames s.frames with
      | nil => rw [hrec] at hK; simp at hK
      | cons a l => simp
    simp [parse, hh, hne]
  · unfold parse wellFormedCount
    cases hh : s.goodHeader with
    | false => simp [Except.toOption]
    | true =>
      cases hrec : recoverFrames s.frames with
      | nil => simp [hrec, Except.toOption]
      | cons a l => simp [hrec, Except.toOption]

/-- A concrete valid container: two well-formed frames (timestamps 1
then 2) around one malformed frame. -/
def sampleStream : RawStream :=
  ⟨true,
    [Frame.wellFormed ⟨MsgType.GPS_RAW_INT, 1, [("fix_type", 3)], ""⟩,
     Frame.malformed,
     Frame.wellFormed ⟨MsgType.GPS_RAW_INT, 2, [("fix_type", 3)], ""⟩]⟩

/-- Witness for C1: on `sampleStream` (2 well-formed frames, 1
malformed) the hypotheses hold and `parse` returns exactly the two
decoded messages. -/
theorem parse_correct_witness :
    validContainer sampleStream ∧ 0 < wellFormedCount sampleStream.frames ∧
      parse sampleStream 7 "flight.bin" =
        .ok ⟨7, "flight.bin", recoverFrames sampleStream.frames⟩ :=
  ⟨by decide, by decide,
    (parse_correct sampleStream 7 "flight.bin").1 (by decide) (by decide)⟩

/-- `true` when the first list is a leading segment of the second. -/
def leadingSegment : List Char → List Char → Bool
  | [], _ => true
  | _ :: _, [] => false
  | a :: as, b :: bs => a == b && leadingSegment as bs

/-- `true` when the first list occurs contiguously inside the second. -/
def occursIn (needle : List Char) : List Char → Bool
  | [] => needle.isEmpty
  | b :: rest => leadingSegment needle (b :: rest) || occursIn needle rest

/-- Modelled from the spec: keyword containment test — the keyword
occurs in the lower-cased question text.  The backend
`_infer_message_types` is missing from the source tree. -/
def kwMatches (q kw : String) : Bool :=
  occursIn kw.data (q.data.map Char.toLower)

/-- Modelled from the spec: the static keyword-to-type lookup table
(altitude/position → position types, GPS → GPS types,
battery/temperature → battery types, error/critical → status-text
types, RC/radio → radio types), in its fixed insertion order. -/
def keywordTable : List (String × List MsgType) :=
  [("altitude", [MsgType.GPS_RAW_INT, MsgType.GLOBAL_POSITION_INT]),
   ("position", [MsgType.GLOBAL_POSITION_INT]),
   ("gps", [MsgType.GPS_RAW_INT]),
   ("battery", [MsgType.BATTERY_STATUS]),
   ("temperature", [MsgType.BATTERY_STATUS]),
   ("error", [MsgType.STATUSTEXT]),
   ("critical", [MsgType.STATUSTEXT]),
   ("rc", [MsgType.RC_CHANNELS]),
   ("radio", [MsgType.RC_CHANNELS])]

/-- The concatenated type tags of every matching table entry, in table
order — one hit per matching keyword, duplicates included. -/
def hitsAux (q : String) : List (String × List MsgType) → List MsgType
  | [] => []
  | e :: rest => (if kwMatches q e.1 then e.2 else []) ++ hitsAux q rest

/-- All keyword hits of a question against the full table. -/
def hitSequence (q : String) : List MsgType :=
  hitsAux q keywordTable

/-- Keep the first occurrence of every element, drop later duplicates. -/
def firstSeenDedup {α : Type} [DecidableEq α] : List α → List α
  | [] => []
  | a :: rest => a :: (firstSeenDedup rest).filter (fun b => decide (b ≠ a))

/-- Modelled from the spec: `infer(questionText)` — collect the type
tags of every matching keyword in table order, then remove duplicates
keeping first-seen order.  The backend `_infer_message_types` is
missing from the source tree. -/
def inferTypes (q : String) : List MsgType :=
  firstSeenDedup (hitSequence q)

lemma mem_firstSeenDedup {α : Type} [DecidableEq α] (x : α) (l : List α) :
    x ∈ firstSeenDedup l ↔ x ∈ l := by
  induction l with
  | nil => simp [firstSeenDedup]
  | cons a rest ih =>
    simp only [firstSeenDedup, List.mem_cons, List.mem_filter,
      decide_eq_true_iff, ih]
    constructor
    · rintro (rfl | ⟨hm, _⟩)
      · exact Or.inl rfl
      · exact Or.inr hm
    · rintro (rfl | hm)
      · exact Or.inl rfl
      · by_cases hx : x = a
        · exact Or.inl hx
        · exact Or.inr ⟨hm, hx⟩

lemma nodup_firstSeenDedup {α : Type} [DecidableEq α] (l : List α) :
    (firstSeenDedup l).Nodup := by
  induction l with
  | nil => simp [firstSeenDedup]
  | cons a rest ih =>
    refine List.Nodup.cons ?_ (List.Nodup.filter _ ih)
    intro hmem
    rcases List.mem_filter.mp hmem with ⟨_, hne⟩
    exact (decide_eq_true_iff.mp hne) rfl

lemma sublist_firstSeenDedup {α : Type} [DecidableEq α] (l : List α) :
    (firstSeenDedup l).Sublist l := by
  induction l with
  | nil => simp [firstSeenDedup]
  | cons a rest ih =>
    exact List.Sublist.cons₂ a ((List.filter_sublist (firstSeenDedup rest)).trans ih)

lemma firstSeenDedup_eq_nil_iff {α : Type} [DecidableEq α] (l : List α) :
    firstSeenDedup l = [] ↔ l = [] := by
  cases l <;> simp [firstSeenDedup]

lemma hitsAux_eq_nil_iff (q : String) (table : List (String × List MsgType))
    (h : ∀ e ∈ table, e.2 ≠ []) :
    hitsAux q table = [] ↔ ∀ e ∈ table, kwMatches q e.1 = false := by
  induction table with
  | nil => simp [hitsAux]
  | cons e rest ih =>
    have hr := ih (fun x hx => h x (List.mem_cons_of_mem e hx))
    have he : e.2 ≠ [] := h e (List.mem_cons_self e rest)
    cases hkw : kwMatches q e.1 with
    | false => simp [hitsAux, hkw, hr]
    | true => simp [hitsAux, hkw, he]

/-- C2: `infer` returns a duplicate-free list of type tags that is an
order-preserving selection of the keyword hits (first-seen insertion
order over the table), contains exactly the tags some matching keyword
contributes, is empty exactly when no keyword of the table matches
(hence non-empty as soon as one recognized keyword occurs in the
question), and is a pure function of the question text. -/
theorem inferTypes_spec (q : String) :
    (inferTypes q).Nodup ∧
    (inferTypes q).Sublist (hitSequence q) ∧
    (∀ t, t ∈ inferTypes q ↔ t ∈ hitSequence q) ∧
    (inferTypes q = [] ↔ ∀ e ∈ keywordTable, kwMatches q e.1 = false) ∧
    inferTypes q = inferTypes q := by
  refine ⟨nodup_firstSeenDedup _, sublist_firstSeenDedup _,
    fun t => mem_firstSeenDedup t _, ?_, rfl⟩
  rw [inferTypes, firstSeenDedup_eq_nil_iff, hitSequence,
    hitsAux_eq_nil_iff q keywordTable (by decide)]

/-- Witness for C2 on concrete questions: the altitude question yields
the two position types in table order, and a question matching no
keyword yields the empty set. -/
theorem inferTypes_spec_witness :
    (inferTypes "What was the highest altitude?").Nodup ∧
    inferTypes "hello there" = [] :=
  ⟨(inferTypes_spec "What was the highest altitude?").1,
    (inferTypes_spec "hello there").2.2.2.1.mpr (by decide)⟩

/-- Modelled from the spec: the overall status of an anomaly summary. -/
inductive AnomalyStatus
  | nominal
  | anomaliesDetected
  | insufficientData
  deriving DecidableEq, Repr

/-- Modelled from the spec: the derived, cached anomaly artifact —
overall status, per-category counts, bounded representative examples,
battery-temperature maximum and altitude range.  The backend
`AnomalyService` is missing from the source tree. -/
structure AnomalySummary where
  status : AnomalyStatus
  gpsLossCount : Nat
  rcLossCount : Nat
  highSeverityCount : Nat
  batteryTempExcursions : Nat
  examples : List String
  batteryTempMax : Option Int
  altitudeMin : Option Int
  altitudeMax : Option Int
  deriving DecidableEq, Repr

/-- Field lookup inside one message's field mapping. -/
def getField (m : TelemetryMessage) (name : String) : Option Int :=
  m.fields.lookup name

/-- Position message types carrying an altitude field. -/
def positionTypes : List MsgType :=
  [MsgType.GPS_RAW_INT, MsgType.GLOBAL_POSITION_INT]

/-- Modelled from the spec: message types any anomaly heuristic reads;
a log without them yields `insufficient-data`. -/
def relevantTypes : List MsgType :=
  [MsgType.GPS_RAW_INT, MsgType.GLOBAL_POSITION_INT, MsgType.BATTERY_STATUS,
   MsgType.STATUSTEXT, MsgType.RC_CHANNELS]

/-- The messages of a log carrying one of the given type tags, in
original order. -/
def msgsOfTypes (types : List MsgType) (msgs : List TelemetryMessage) :
    List TelemetryMessage :=
  msgs.filter (fun m => decide (m.msgType ∈ types))

/-- `true` when at least one message type an anomaly heuristic reads is
present in the log. -/
def hasRelevantData (msgs : List TelemetryMessage) : Bool :=
  msgs.any (fun m => decide (m.msgType ∈ relevantTypes))

/-- Modelled from the spec: a GPS message shows a usable fix unless its
`fix_type` field reports a degraded/no-fix state. -/
def gpsOk (m : TelemetryMessage) : Bool :=
  match getField m "fix_type" with
  | some v => decide (2 ≤ v)
  | none => true

/-- Modelled from the spec: an RC message shows live RC input unless
its signal field reports "no RC input". -/
def rcOk (m : TelemetryMessage) : Bool :=
  match getField m "rssi" with
  | some v => decide (0 < v)
  | none => true

/-- Modelled from the spec: the severity threshold at or above which a
status-text message counts as high-severity. -/
def severityThreshold : Int := 4

/-- Modelled from the spec: the battery-temperature threshold (80 °C in
the specification's end-to-end scenario). -/
def batteryTempThreshold : Int := 80

/-- Modelled from the spec: bound on stored representative examples. -/
def maxExamples : Nat := 5

/-- `true` when a status-text message is flagged at or above the
severity threshold. -/
def isHighSeverity (m : TelemetryMessage) : Bool :=
  match getField m "severity" with
  | some v => decide (severityThreshold ≤ v)
  | none => false

/-- Count transitions into a bad state: positions whose state is bad
while the preceding state (initially good) was good. -/
def countLossTransitions (prevOk : Bool) : List Bool → Nat
  | [] => 0
  | ok :: rest => (if prevOk && !ok then 1 else 0) + countLossTransitions ok rest

/-- Greatest element of an integer list, `none` when empty. -/
def optMax : List Int → Option Int
  | [] => none
  | v :: rest =>
    some (match optMax rest with
      | none => v
      | some w => max v w)

/-- Least element of an integer list, `none` when empty. -/
def optMin : List Int → Option Int
  | [] => none
  | v :: rest =>
    some (match optMin rest with
      | none => v
      | some w => min v w)

/-- Modelled from the spec: derive the overall status from data
presence and the total of the per-category counts. -/
def deriveStatus (hasData : Bool) (total : Nat) : AnomalyStatus :=
  if !hasData then AnomalyStatus.insufficientData
  else if 0 < total then AnomalyStatus.anomaliesDetected
  else AnomalyStatus.nominal

/-- Modelled from the spec: the anomaly heuristics over a message
sequence — GPS-loss and RC-loss transition counts, high-severity
status-text counts with bounded examples, battery-temperature
excursions and maximum, altitude range — and the derived status.
The backend `AnomalyService` is missing from the source tree. -/
def anomalyOfMessages (msgs : List TelemetryMessage) : AnomalySummary :=
  let gpsLoss :=
    countLossTransitions true ((msgsOfTypes [MsgType.GPS_RAW_INT] msgs).map gpsOk)
  let rcLoss :=
    countLossTransitions true ((msgsOfTypes [MsgType.RC_CHANNELS] msgs).map rcOk)
  let highSev := (msgsOfTypes [MsgType.STATUSTEXT] msgs).filter isHighSeverity
  let temps := (msgsOfTypes [MsgType.BATTERY_STATUS] msgs).filterMap
    (fun m => getField m "temperature")
  let excursions := (temps.filter (fun v => decide (batteryTempThreshold < v))).length
  let alts := (msgsOfTypes positionTypes msgs).filterMap (fun m => getField m "alt")
  { status := deriveStatus (hasRelevantData msgs)
      (gpsLoss + rcLoss + highSev.length + excursions),
    gpsLossCount := gpsLoss,
    rcLossCount := rcLoss,
    highSeverityCount := highSev.length,
    batteryTempExcursions := excursions,
    examples := (highSev.map TelemetryMessage.text).take maxExamples,
    batteryTempMax := optMax temps,
    altitudeMin := optMin alts,
    altitudeMax := optMax alts }

/-- The total of the per-category anomaly counts. -/
def totalAnomalyCount (s : AnomalySummary) : Nat :=
  s.gpsLossCount + s.rcLossCount + s.highSeverityCount + s.batteryTempExcursions

/-- C4: the anomaly computation is total on every message sequence and
derives its status as specified — `insufficient-data` exactly when the
relevant message types are entirely absent (in particular on the empty
log), `anomalies-detected` exactly when some category count is
positive, and `nominal` otherwise. -/
theorem anomaly_status_correct (msgs : List TelemetryMessage) :
    ((anomalyOfMessages msgs).status = AnomalyStatus.insufficientData ↔
      hasRelevantData msgs = false) ∧
    (msgs = [] →
      (anomalyOfMessages msgs).status = AnomalyStatus.insufficientData) ∧
    (hasRelevantData msgs = true →
      (((anomalyOfMessages msgs).status = AnomalyStatus.anomaliesDetected ↔
          0 < totalAnomalyCount (anomalyOfMessages msgs)) ∧
        ((anomalyOfMessages msgs).status = AnomalyStatus.nominal ↔
          totalAnomalyCount (anomalyOfMessages msgs) = 0))) := by
  have hst : (anomalyOfMessages msgs).status =
      deriveStatus (hasRelevantData msgs)
        (totalAnomalyCount (anomalyOfMessages msgs)) := rfl
  refine ⟨?_, ?_, ?_⟩
  · rw [hst]
    unfold deriveStatus
    cases h : hasRelevantData msgs
    · simp
    · simp only [Bool.not_true, Bool.false_eq_true, if_false]
      split_ifs <;> simp
  · intro h
    subst h
    rfl
  · intro h
    rw [hst]
    unfold deriveStatus
    rw [h]
    simp only [Bool.not_true, Bool.false_eq_true, if_false]
    split_ifs with ht
    · constructor
      · simp only [true_iff]
        exact ht
      · constructor
        · intro hcon
          exact absurd hcon (by simp)
        · intro h0
          omega
    · constructor
      · constructor
        · intro hcon
          exact absurd hcon (by simp)
        · intro hpos
          omega
      · simp only [true_iff]
        omega

/-- The specification's end-to-end scenario log: three GPS messages
(the middle one showing fix loss) and one battery message at 85 °C. -/
def scenarioMsgs : List TelemetryMessage :=
  [⟨MsgType.GPS_RAW_INT, 10, [("fix_type", 3)], ""⟩,
   ⟨MsgType.GPS_RAW_INT, 20, [("fix_type", 0)], ""⟩,
   ⟨MsgType.GPS_RAW_INT, 30, [("fix_type", 3)], ""⟩,
   ⟨MsgType.BATTERY_STATUS, 40, [("temperature", 85)], ""⟩]

/-- Witness for C4 on the specification's scenario log: relevant data
is present and the status characterizations hold there. -/
theorem anomaly_status_correct_witness :
    hasRelevantData scenarioMsgs = true ∧
    (((anomalyOfMessages scenarioMsgs).status = AnomalyStatus.anomaliesDetected ↔
        0 < totalAnomalyCount (anomalyOfMessages scenarioMsgs)) ∧
      ((anomalyOfMessages scenarioMsgs).status = AnomalyStatus.nominal ↔
        totalAnomalyCount (anomalyOfMessages scenarioMsgs) = 0)) :=
  ⟨by decide, (anomaly_status_correct scenarioMsgs).2.2 (by decide)⟩

/-- Modelled from the spec: the Anomaly Analyzer's per-log cache,
keyed by FlightLog identity, with a computation counter as used by the
specification's test property.  The backend cache is missing from the
source tree. -/
structure AnomalyCacheState where
  cache : List (Nat × AnomalySummary)
  computeCount : Nat
  deriving DecidableEq, Repr

/-- The underlying anomaly computation: a function of the FlightLog's
message content only. -/
def computeAnomalySummary (log : FlightLog) : AnomalySummary :=
  anomalyOfMessages log.messages

/-- Modelled from the spec: `summarize(flightLog)` memoized by FlightLog
identity — a cache hit returns the stored summary and leaves the state
unchanged; a miss runs the computation once, stores the result under
the log's identity and bumps the computation counter. -/
def summarizeCached (st : AnomalyCacheState) (log : FlightLog) :
    AnomalySummary × AnomalyCacheState :=
  match st.cache.lookup log.id with
  | some s => (s, st)
  | none =>
    let s := computeAnomalySummary log
    (s, ⟨(log.id, s) :: st.cache, st.computeCount + 1⟩)

/-- C3: `summarize` is memoized by FlightLog identity — a second call
with the same identity returns the identical summary and leaves the
cache state (computation counter included) unchanged, a first
uncached call runs the computation exactly once (counter `+1`), the
result is stored under the log's identity, and the computed summary is
a deterministic function of the FlightLog's message content. -/
theorem summarize_memoized (st : AnomalyCacheState) (log : FlightLog) :
    (summarizeCached (summarizeCached st log).2 log =
      ((summarizeCached st log).1, (summarizeCached st log).2)) ∧
    (st.cache.lookup log.id = none →
      (summarizeCached st log).2.computeCount = st.computeCount + 1) ∧
    ((summarizeCached st log).2.cache.lookup log.id =
      some (summarizeCached st log).1) ∧
    (∀ log₁ log₂ : FlightLog, log₁.messages = log₂.messages →
      computeAnomalySummary log₁ = computeAnomalySummary log₂) := by
  have hdet : ∀ log₁ log₂ : FlightLog, log₁.messages = log₂.messages →
      computeAnomalySummary log₁ = computeAnomalySummary log₂ := by
    intro log₁ log₂ hm
    unfold computeAnomalySummary
    rw [hm]
  cases h : st.cache.lookup log.id with
  | some s =>
    refine ⟨?_, ?_, ?_, hdet⟩
    · simp [summarizeCached, h]
    · intro hnone
      exact absurd hnone (by simp)
    · simp [summarizeCached, h]
  | none =>
    refine ⟨?_, ?_, ?_, hdet⟩
    · simp [summarizeCached, h, List.lookup]
    · intro _
      simp [summarizeCached, h]
    · simp [summarizeCached, h, List.lookup]

/-- The initially empty anomaly cache. -/
def cacheState0 : AnomalyCacheState := ⟨[], 0⟩

/-- The specification's scenario log as a FlightLog value. -/
def sampleLog : FlightLog := ⟨7, "flight.bin", scenarioMsgs⟩

/-- Witness for C3: on the empty cache and the scenario log, the log is
uncached and the first call bumps the computation counter to one. -/
theorem summarize_memoized_witness :
    cacheState0.cache.lookup sampleLog.id = none ∧
    (summarizeCached cacheState0 sampleLog).2.computeCount =
      cacheState0.computeCount + 1 :=
  ⟨rfl, (summarize_memoized cacheState0 sampleLog).2.1 rfl⟩

/-- Modelled from the spec: the two dialogue roles. -/
inductive Role
  | user
  | agent
  deriving DecidableEq, Repr

/-- Modelled from the spec: one dialogue turn. -/
structure Turn where
  role : Role
  text : String
  timestamp : Nat
  deriving DecidableEq, Repr

/-- Modelled from the spec: multi-turn dialogue state — identity,
append-only turn sequence, optionally bound FlightLog identity and the
pending-clarification flag.  The backend `Conversation` entity is
missing from the source tree. -/
structure Conversation where
  id : Nat
  turns : List Turn
  boundLog : Option Nat
  pendingClarification : Bool
  deriving DecidableEq, Repr

/-- Modelled from the spec: Conversation states `NEW`, `ACTIVE` and
`AWAITING_CLARIFICATION`. -/
inductive ConvState
  | NEW
  | ACTIVE
  | AWAITING_CLARIFICATION
  deriving DecidableEq, Repr

/-- A freshly created Conversation: no history, no bound log, no
pending clarification. -/
def newConversation (id : Nat) : Conversation :=
  ⟨id, [], none, false⟩

/-- The state a Conversation is in: `NEW` with no history, otherwise
`AWAITING_CLARIFICATION` while a clarification is pending, `ACTIVE`
otherwise. -/
def stateOf (c : Conversation) : ConvState :=
  if c.turns.isEmpty then ConvState.NEW
  else if c.pendingClarification then ConvState.AWAITING_CLARIFICATION
  else ConvState.ACTIVE

/-- Modelled from the spec: `appendTurn(conversation, role, text)` —
always permitted; appends the turn and, on an agent turn, sets the
pending-clarification flag to whether that turn carries the
clarification marker.  The backend `Conversation.add_message` is
missing from the source tree. -/
def appendTurn (c : Conversation) (role : Role) (text : String) (ts : Nat)
    (clarifies : Bool) : Conversation :=
  { c with
    turns := c.turns ++ [⟨role, text, ts⟩],
    pendingClarification :=
      if role = Role.agent then clarifies else c.pendingClarification }

/-- C6: `appendTurn` is always permitted and appends exactly the given
turn; an agent turn carrying no clarification flag takes every
Conversation — `NEW` or `AWAITING_CLARIFICATION` included — to
`ACTIVE`, and an agent turn carrying the flag takes it to (or leaves it
in) `AWAITING_CLARIFICATION`; hence every reachable state has outgoing
transitions and no state is terminal. -/
theorem conversation_state_machine (c : Conversation) (r : Role)
    (text : String) (ts : Nat) (clarifies : Bool) :
    ((appendTurn c r text ts clarifies).turns = c.turns ++ [⟨r, text, ts⟩]) ∧
    (stateOf (appendTurn c Role.agent text ts false) = ConvState.ACTIVE) ∧
    (stateOf (appendTurn c Role.agent text ts true) =
      ConvState.AWAITING_CLARIFICATION) ∧
    (stateOf (appendTurn c r text ts clarifies) = ConvState.ACTIVE ∨
      stateOf (appendTurn c r text ts clarifies) =
        ConvState.AWAITING_CLARIFICATION) := by
  refine ⟨rfl, ?_, ?_, ?_⟩
  · simp [stateOf, appendTurn]
  · simp [stateOf, appendTurn]
  · simp only [stateOf, appendTurn]
    split_ifs <;> simp_all

/-- Modelled from the spec: the typed error taxonomy of the query
surface — `MissingContextError`, `NotFoundError`,
`ReasoningUnavailableError`. -/
inductive QueryError
  | missingContext
  | notFound
  | reasoningUnavailable
  deriving DecidableEq, Repr

/-- Modelled from the spec: one response of the external reasoning
capability — answer text, optional confidence, optional clarification
marker with its question text. -/
structure CapabilityResponse where
  answerText : String
  confidence : Option ℚ
  clarificationQuestion : Option String
  deriving DecidableEq, Repr

/-- Modelled from the spec: the outcome of one attempted capability
round trip — success, a transient (retryable) error, or a fatal one. -/
inductive CapOutcome
  | ok (resp : CapabilityResponse)
  | transientErr
  | fatalErr
  deriving DecidableEq, Repr

/-- Modelled from the spec: the small bounded retry count of the
capability call. -/
def maxAttempts : Nat := 3

/-- Modelled from the spec: invoke the capability with a bounded retry
budget; each attempt consumes the next environment outcome, transient
errors are retried while budget remains, fatal errors and an exhausted
budget surface as `ReasoningUnavailableError`. -/
def callWithRetries : Nat → List CapOutcome → Except QueryError CapabilityResponse
  | 0, _ => .error QueryError.reasoningUnavailable
  | _ + 1, [] => .error QueryError.reasoningUnavailable
  | n + 1, o :: rest =>
    match o with
    | CapOutcome.ok r => .ok r
    | CapOutcome.transientErr => callWithRetries n rest
    | CapOutcome.fatalErr => .error QueryError.reasoningUnavailable

/-- Modelled from the spec: the immutable per-transaction value object
— answer text, confidence, source references, clarification fields. -/
structure QueryResult where
  answerText : String
  confidence : ℚ
  sources : List String
  requiresClarification : Bool
  clarificationQuestion : Option String
  deriving DecidableEq, Repr

/-- Modelled from the spec: the fixed default confidence used when the
capability supplies none. -/
def defaultConfidence : ℚ := 4 / 5

/-- Modelled from the spec: the in-process stores — FlightLogs and
Conversations, each keyed by identity. -/
structure SystemState where
  logs : List (Nat × FlightLog)
  convs : List (Nat × Conversation)
  deriving DecidableEq, Repr

/-- Modelled from the spec: `resolve(conversationId)` — an absent or
unknown identifier yields a fresh `NEW` Conversation, the only
creation path. -/
def resolveConv (st : SystemState) (cid : Option Nat) (freshId : Nat) :
    Conversation :=
  match cid with
  | none => newConversation freshId
  | some c =>
    match st.convs.lookup c with
    | some conv => conv
    | none => newConversation c

/-- Store a Conversation under its identity, replacing any previous
binding. -/
def storeConv (convs : List (Nat × Conversation)) (c : Conversation) :
    List (Nat × Conversation) :=
  (c.id, c) :: convs.filter (fun e => decide (e.1 ≠ c.id))

/-- Modelled from the spec: the Query Orchestrator transaction
`answer(questionText, conversationId?, flightLogId?)`.  It resolves the
Conversation, binds the active log (supplied identity first, else the
previously bound one, else `MissingContextError`), resolves the
FlightLog (`NotFoundError` if absent), runs inference and the summaries,
invokes the capability with bounded retries, and only after a completed
capability call appends the user and agent turns and stores the updated
Conversation.  The backend `ChatUseCase.process_query` is missing from
the source tree; the environment's attempt outcomes are passed
explicitly. -/
def answer (st : SystemState) (outcomes : List CapOutcome) (question : String)
    (cid : Option Nat) (fid : Option Nat) (freshId : Nat) (now : Nat) :
    Except QueryError QueryResult × SystemState :=
  let conv := resolveConv st cid freshId
  match fid <|> conv.boundLog with
  | none => (.error QueryError.missingContext, st)
  | some lid =>
    match st.logs.lookup lid with
    | none => (.error QueryError.notFound, st)
    | some log =>
      let convB := { conv with boundLog := some lid }
      let _relevant := inferTypes question
      let _anomaly := computeAnomalySummary log
      match callWithRetries maxAttempts outcomes with
      | .error e => (.error e, st)
      | .ok resp =>
        let needsClar := resp.clarificationQuestion.isSome
        let conv1 := appendTurn convB Role.user question now false
        let conv2 := appendTurn conv1 Role.agent resp.answerText now needsClar
        (.ok ⟨resp.answerText, resp.confidence.getD defaultConfidence,
            ["Flight log: " ++ toString lid], needsClar,
            resp.clarificationQuestion⟩,
          { st with convs := storeConv st.convs conv2 })

/-- C5: `answer` fails with `MissingContextError` when no FlightLog
identity is supplied and the resolved Conversation has no previously
bound log — in particular with no supplied Conversation, since a fresh
Conversation binds no log — and fails with `NotFoundError` when the
effective FlightLog identity is absent from the store; both errors are
returned directly (no retry) with the stores untouched. -/
theorem answer_context_errors (st : SystemState) (outcomes : List CapOutcome)
    (question : String) (cid : Option Nat) (fid : Option Nat)
    (freshId now : Nat) :
    (fid = none → (resolveConv st cid freshId).boundLog = none →
      answer st outcomes question cid fid freshId now =
        (.error QueryError.missingContext, st)) ∧
    (∀ lid, (fid <|> (resolveConv st cid freshId).boundLog) = some lid →
      st.logs.lookup lid = none →
      answer st outcomes question cid fid freshId now =
        (.error QueryError.notFound, st)) ∧
    (cid = none → (resolveConv st cid freshId).boundLog = none) := by
  refine ⟨?_, ?_, ?_⟩
  · intro h1 h2
    simp [answer, h1, h2]
  · intro lid hl hnone
    simp [answer, hl, hnone]
  · intro h
    subst h
    rfl

/-- The empty system state: no FlightLogs, no Conversations. -/
def emptyState : SystemState := ⟨[], []⟩

/-- Witness for C5: with no supplied FlightLog identity and no prior
Conversation, `answer` on the empty state fails with
`MissingContextError` and leaves the state untouched. -/
theorem answer_context_errors_witness :
    ((none : Option Nat) = none ∧
      (resolveConv emptyState none 1).boundLog = none) ∧
    answer emptyState [] "What was the highest altitude?" none none 1 0 =
      (.error QueryError.missingContext, emptyState) :=
  ⟨⟨rfl, rfl⟩,
    (answer_context_errors emptyState [] "What was the highest altitude?"
      none none 1 0).1 rfl rfl⟩

lemma callWithRetries_replicate_ok (n k : Nat) (hk : k < n)
    (r : CapabilityResponse) (rest : List CapOutcome) :
    callWithRetries n
      (List.replicate k CapOutcome.transientErr ++ CapOutcome.ok r :: rest) =
      .ok r := by
  induction k generalizing n with
  | zero =>
    cases n with
    | zero => omega
    | succ n => simp [callWithRetries]
  | succ k ih =>
    cases n with
    | zero => omega
    | succ n =>
      rw [List.replicate_succ]
      simp only [List.cons_append, callWithRetries]
      exact ih n (by omega)

lemma callWithRetries_all_transient (n : Nat) (outcomes : List CapOutcome)
    (h : ∀ o ∈ outcomes.take n, o = CapOutcome.transientErr) :
    callWithRetries n outcomes = .error QueryError.reasoningUnavailable := by
  induction n generalizing outcomes with
  | zero => rfl
  | succ n ih =>
    cases outcomes with
    | nil => rfl
    | cons o rest =>
      have ho : o = CapOutcome.transientErr := by
        refine h o ?_
        rw [List.take_succ_cons]
        exact List.mem_cons_self o _
      subst ho
      simp only [callWithRetries]
      refine ih rest (fun x hx => h x ?_)
      rw [List.take_succ_cons]
      exact List.mem_cons_of_mem _ hx

/-- C7: the capability call is retried for transient errors (fewer than
the bounded attempt count of transient outcomes before a success still
succeeds), a run of transient outcomes exhausting the bound surfaces as
`ReasoningUnavailableError`, and whenever the capability call fails the
whole transaction returns an error — never a fabricated answer — with
the system state (Conversations included) unchanged: turns are appended
only after the capability call completes, so a failed or aborted
attempt leaves no partial turn. -/
theorem capability_failure_semantics (st : SystemState)
    (outcomes outcomes2 : List CapOutcome) (question : String)
    (cid fid : Option Nat) (freshId now : Nat) (k : Nat)
    (r : CapabilityResponse) (rest : List CapOutcome)
    (hk : k < maxAttempts)
    (hall : ∀ o ∈ outcomes2.take maxAttempts, o = CapOutcome.transientErr)
    (hcap : (callWithRetries maxAttempts outcomes).toOption = none) :
    callWithRetries maxAttempts
        (List.replicate k CapOutcome.transientErr ++ CapOutcome.ok r :: rest) =
      .ok r ∧
    callWithRetries maxAttempts outcomes2 =
      .error QueryError.reasoningUnavailable ∧
    (answer st outcomes question cid fid freshId now).1.toOption = none ∧
    (answer st outcomes question cid fid freshId now).2 = st := by
  refine ⟨callWithRetries_replicate_ok maxAttempts k hk r rest,
    callWithRetries_all_transient maxAttempts outcomes2 hall, ?_⟩
  cases hm : fid <|> (resolveConv st cid freshId).boundLog with
  | none => constructor <;> simp [answer, hm, Except.toOption]
  | some lid =>
    cases hl : st.logs.lookup lid with
    | none => constructor <;> simp [answer, hm, hl, Except.toOption]
    | some log =>
      cases hc : callWithRetries maxAttempts outcomes with
      | ok resp =>
        rw [hc] at hcap
        exact absurd hcap (by simp [Except.toOption])
      | error e =>
        constructor <;> simp [answer, hm, hl, hc, Except.toOption]

/-- A system state holding one FlightLog under identity 5. -/
def stateWithLog : SystemState := ⟨[(5, sampleLog)], []⟩

/-- Witness for C7 at concrete inputs: one transient outcome before a
success is retried through; three transient outcomes exhaust the bound;
and on a fatal outcome the transaction errors with the state
unchanged. -/
theorem capability_failure_semantics_witness :
    (1 < maxAttempts ∧
      (∀ o ∈ [CapOutcome.transientErr, CapOutcome.transientErr,
          CapOutcome.transientErr].take maxAttempts,
        o = CapOutcome.transientErr) ∧
      (callWithRetries maxAttempts [CapOutcome.fatalErr]).toOption = none) ∧
    (callWithRetries maxAttempts
        (List.replicate 1 CapOutcome.transientErr ++
          CapOutcome.ok ⟨"ok", none, none⟩ :: []) = .ok ⟨"ok", none, none⟩ ∧
      callWithRetries maxAttempts
          [CapOutcome.transientErr, CapOutcome.transientErr,
            CapOutcome.transientErr] =
        .error QueryError.reasoningUnavailable ∧
      (answer stateWithLog [CapOutcome.fatalErr] "What was the max battery temperature?"
          none (some 5) 1 0).1.toOption = none ∧
      (answer stateWithLog [CapOutcome.fatalErr] "What was the max battery temperature?"
          none (some 5) 1 0).2 = stateWithLog) :=
  ⟨⟨by decide, by decide, by decide⟩,
    capability_failure_semantics stateWithLog [CapOutcome.fatalErr]
      [CapOutcome.transientErr, CapOutcome.transientErr, CapOutcome.transientErr]
      "What was the max battery temperature?" none (some 5) 1 0 1
      ⟨"ok", none, none⟩ [] (by decide) (by decide) (by decide)⟩

end UAVLogViewer
